import Mathlib

/-!
Shallow embedding of the nanobanana-mcp server (`src/index.ts`): the session
context store, media-history eviction, the reference-resolution grammar
(`"last"`, `"history:N"`, filesystem paths with a basename fallback),
request-part assembly for the chat / generate-image / edit-image tools,
aspect-ratio resolution, streaming-response aggregation, and output-path
normalization.  Filesystem reads are modelled by an environment function
`fs : String → Option String` (path to base64 content of readable files);
the backend transport is modelled by a `TransportResponse` value; `Date.now()`
and the random image id are passed as explicit parameters.
-/

namespace NanoBananaMCP

/-- Model of Node `path.join(a, b)` for the POSIX paths used by the server. -/
def pathJoin (a b : String) : String := a ++ "/" ++ b

/-- Model of Node `path.isAbsolute` on POSIX paths. -/
def isAbsolutePath (p : String) : Bool := p.data.take 1 == ['/']

/-- Model of Node `path.basename`: the final path component. -/
def pathBasename (p : String) : String :=
  String.mk ((p.data.reverse.takeWhile (fun c => !(c == '/'))).reverse)

/-- Environment of a tool invocation: the readable filesystem (path to base64
content, `none` for a missing/unreadable file, modelling both `fs.access`
failure and `fs.readFile` failure), the working directory `process.cwd()`,
and `os.homedir()`. -/
structure Env where
  fs : String → Option String
  cwd : String
  homeDir : String

/-- The fixed default output directory `~/Documents/nanobanana_generated`
used as fallback lookup location and default save location. -/
def defaultOutputDir (env : Env) : String :=
  pathJoin (pathJoin env.homeDir "Documents") "nanobanana_generated"

/-- The fixed ten-member aspect-ratio enum `VALID_ASPECT_RATIOS`. -/
def VALID_ASPECT_RATIOS : List String :=
  ["1:1", "9:16", "16:9", "3:4", "4:3", "3:2", "2:3", "5:4", "4:5", "21:9"]

/-- The `type` discriminator of an image-history entry. -/
inductive EntryKind
  | generated
  | edited
deriving DecidableEq

/-- One `ImageHistoryEntry` of the per-session image history. -/
structure ImageHistoryEntry where
  id : String
  filePath : String
  base64Data : String
  mimeType : String
  prompt : String
  timestamp : Nat
  type : EntryKind
deriving DecidableEq

/-- One-of part of a chat SDK message (`Part` of `@google/generative-ai`):
either a text fragment or inline image data. -/
inductive SdkPart
  | text (s : String)
  | inlineData (mimeType data : String)
deriving DecidableEq

/-- Role of a chat turn. -/
inductive ChatRole
  | user
  | model
deriving DecidableEq

/-- One turn of the per-session chat transcript. -/
structure ChatTurn where
  role : ChatRole
  parts : List SdkPart
deriving DecidableEq

/-- Per-session `ConversationContext`: chat transcript, bounded image history,
and the optional session aspect ratio (starts `null`). -/
structure ConversationContext where
  history : List ChatTurn
  imageHistory : List ImageHistoryEntry
  aspectRatio : Option String
deriving DecidableEq

/-- `MAX_IMAGE_HISTORY`: capacity bound of the image history. -/
def MAX_IMAGE_HISTORY : Nat := 10

/-- `MAX_REFERENCE_IMAGES`: number of most recent history images included in a
consistency-mode generate request. -/
def MAX_REFERENCE_IMAGES : Nat := 3

/-- `addImageToHistory`: push the entry at the tail, then drop the head when
the length exceeds `MAX_IMAGE_HISTORY` (the source mutates
`context.imageHistory` with `push` and `shift`; modelled as list in / list out). -/
def addImageToHistory (imageHistory : List ImageHistoryEntry)
    (entry : ImageHistoryEntry) : List ImageHistoryEntry :=
  if (imageHistory ++ [entry]).length > MAX_IMAGE_HISTORY then
    (imageHistory ++ [entry]).tail
  else imageHistory ++ [entry]

/-- The image history of a fresh session after the given entries were recorded
in order by successive successful generate/edit calls. -/
def runImageHistory (entries : List ImageHistoryEntry) : List ImageHistoryEntry :=
  entries.foldl addImageToHistory []

/-- Model of matching the suffix of the regex `^history:(\d+)$` and converting
it with `parseInt(_, 10)`: succeeds exactly on a nonempty all-digit suffix. -/
def digitSuffixToNat (cs : List Char) : Option Nat :=
  if !cs.isEmpty && cs.all Char.isDigit then
    some (cs.foldl (fun n c => n * 10 + (c.toNat - 48)) 0)
  else none

/-- `getImageFromHistory`: resolve a `"last"` / `"history:N"` reference against
the session image history, returning `none` (and thereby falling through to
filesystem-path handling at every call site) for the empty history, an
out-of-range index, or any reference that matches neither form. -/
def getImageFromHistory (context : ConversationContext)
    (reference : String) : Option ImageHistoryEntry :=
  if context.imageHistory.isEmpty then none
  else if reference == "last" then
    context.imageHistory.get? (context.imageHistory.length - 1)
  else if reference.data.take 8 == "history:".data then
    match digitSuffixToNat (reference.data.drop 8) with
    | some index => context.imageHistory.get? index
    | none => none
  else none

/-- JavaScript truthiness of an optional string argument: `undefined` and the
empty string are falsy, every other string is truthy. -/
def jsTruthyString : Option String → Bool
  | none => false
  | some s => !(s == "")

/-- The shared filesystem-path branch of reference resolution (chat images,
edit subject, edit reference images): resolve relative paths against the
working directory, and if the file is absent retry with only the basename
inside the default output directory.  Returns the resolved path and its
base64 content, or `none`. -/
def resolveFilePathWithFallback (env : Env) (ref : String) :
    Option (String × String) :=
  let resolvedPath := if isAbsolutePath ref then ref else pathJoin env.cwd ref
  match env.fs resolvedPath with
  | some data => some (resolvedPath, data)
  | none =>
      let altPath := pathJoin (defaultOutputDir env) (pathBasename ref)
      match env.fs altPath with
      | some data => some (altPath, data)
      | none => none

/-- Resolution of one chat image reference: session history first, then the
filesystem path with basename fallback; failure carries the warning reason. -/
def resolveChatImage (env : Env) (context : ConversationContext)
    (imgRef : String) : Except String SdkPart :=
  match getImageFromHistory context imgRef with
  | some historyImage =>
      .ok (.inlineData historyImage.mimeType historyImage.base64Data)
  | none =>
      match resolveFilePathWithFallback env imgRef with
      | some pr => .ok (.inlineData "image/png" pr.2)
      | none => .error ("file not found: " ++ imgRef)

/-- Assembly of the chat message parts: the parts list is initialized with the
text message, then each of the first 10 image references is resolved and
appended; failures are collected (with their reason) instead of aborting. -/
def buildChatMessageParts (env : Env) (context : ConversationContext)
    (message : String) (images : List String) :
    List SdkPart × List (String × String) :=
  (images.take 10).foldl
    (fun acc imgRef =>
      match resolveChatImage env context imgRef with
      | .ok part => (acc.1 ++ [part], acc.2)
      | .error reason => (acc.1, acc.2 ++ [(imgRef, reason)]))
    ([SdkPart.text message], [])

/-- Observable outcome of a `gemini_chat` call: the result (`.error` when the
backend call threw, otherwise the response text), the post-call transcript,
the transcript replayed to the backend (`history.slice(0, -1)`), the parts of
the new turn sent to the backend, and the per-image failures reported as
warnings. -/
structure ChatOutcome where
  result : Except String String
  history : List ChatTurn
  sentHistory : List ChatTurn
  sentParts : List SdkPart
  failedImages : List (String × String)

/-- `gemini_chat`: build the message parts, append the user turn to the
transcript, invoke the backend with the prior transcript as context, and on
success append the model turn.  The backend reply is modelled by the
`backend` parameter (`.error` models a thrown `sendMessage`, caught by the
top-level handler). -/
def gemini_chat (env : Env) (context : ConversationContext) (message : String)
    (images : List String) (backend : Except String String) : ChatOutcome :=
  let bp := buildChatMessageParts env context message images
  let history1 := context.history ++ [{ role := .user, parts := bp.1 }]
  match backend with
  | .error e =>
      { result := .error ("Error: " ++ e)
        history := history1
        sentHistory := history1.dropLast
        sentParts := bp.1
        failedImages := bp.2 }
  | .ok text =>
      { result := .ok text
        history := history1 ++ [{ role := .model, parts := [SdkPart.text text] }]
        sentHistory := history1.dropLast
        sentParts := bp.1
        failedImages := bp.2 }

/-- One-of part of a `GeminiImageRequestPart` sent to the image REST API. -/
inductive GeminiImageRequestPart
  | text (s : String)
  | inlineData (mimeType data : String)
deriving DecidableEq

/-- One part of a streamed response chunk, as read dynamically from the
parsed JSON: both payload fields are optional. -/
structure ResponsePart where
  text : Option String
  inlineData : Option String
deriving DecidableEq

/-- One streamed response chunk (its `candidates[0].content.parts`, or `[]`
when those are absent). -/
structure ResponseChunk where
  parts : List ResponsePart
deriving DecidableEq

/-- One step of the streaming aggregation loop: a part with truthy
`inlineData.data` overwrites the image accumulator, else a part with truthy
`text` is appended to the text accumulator, else the part is ignored. -/
def collectChunkParts (st : Option String × List String)
    (part : ResponsePart) : Option String × List String :=
  if jsTruthyString part.inlineData then (part.inlineData, st.2)
  else if jsTruthyString part.text then (st.1, st.2 ++ [part.text.getD ""])
  else st

/-- The streaming aggregation of `callGeminiImageAPI`: fold all parts of all
chunks in arrival order, producing the last image payload and the collected
text fragments. -/
def aggregateChunks (chunks : List ResponseChunk) :
    Option String × List String :=
  chunks.foldl (fun st chunk => chunk.parts.foldl collectChunkParts st)
    (none, [])

/-- Model of `Array.join` with the empty separator used on the collected text
fragments. -/
def concatAll (l : List String) : String := l.foldr (fun a b => a ++ b) ""

/-- The discriminated result of `callGeminiImageAPI`. -/
structure GeminiImageResponse where
  imageData : Option String
  textResponse : String
  error : Option String
deriving DecidableEq

/-- The backend transport outcome of one `fetch` of the streaming endpoint:
a non-2xx response with its status and body text, or a 2xx response with its
body text and the result of `JSON.parse` (`none` models a parse failure). -/
inductive TransportResponse
  | failure (status : Nat) (errorText : String)
  | success (responseText : String) (parsed : Option (List ResponseChunk))
deriving DecidableEq

/-- `callGeminiImageAPI` past request construction: a non-2xx transport
response throws (modelled as `.error`, caught by the per-tool handler); an
unparseable body returns the raw text with the parse-failure `error` field
set; a parsed body is aggregated into the last image payload and the
concatenated text. -/
def callGeminiImageAPI (response : TransportResponse) :
    Except String GeminiImageResponse :=
  match response with
  | .failure status errorText =>
      .error ("API request failed: " ++ toString status ++ " - " ++ errorText)
  | .success responseText none =>
      .ok { imageData := none, textResponse := responseText,
            error := some "Failed to parse API response" }
  | .success _ (some chunks) =>
      let st := aggregateChunks chunks
      .ok { imageData := st.1, textResponse := concatAll st.2, error := none }

/-- Resolution of one generate-tool reference image: the path is resolved
against the working directory when relative and read directly — no session
history lookup and no basename fallback exist at this call site. -/
def resolveGenerateReferenceImage (env : Env) (imgPath : String) :
    Option String :=
  let resolvedPath :=
    if isAbsolutePath imgPath then imgPath else pathJoin env.cwd imgPath
  env.fs resolvedPath

/-- Assembly of the manual reference-image parts of a generate call, with the
failed references collected (with their reason) for the warning report. -/
def buildGenerateReferenceParts (env : Env) (reference_images : List String) :
    List GeminiImageRequestPart × List (String × String) :=
  reference_images.foldl
    (fun acc imgPath =>
      match resolveGenerateReferenceImage env imgPath with
      | some base64 =>
          (acc.1 ++ [GeminiImageRequestPart.inlineData "image/png" base64], acc.2)
      | none => (acc.1, acc.2 ++ [(imgPath, "file not found: " ++ imgPath)]))
    ([], [])

/-- The consistency instruction appended to the prompt when history images
are included in a generate request. -/
def CONSISTENCY_SUFFIX : String :=
  "\n\nIMPORTANT: Maintain visual consistency with the provided reference images (same style, character appearance, color palette)."

/-- The fixed directive appended to the edit request text. -/
def EDIT_DIRECTIVE_SUFFIX : String :=
  "\n\nIMPORTANT: Create a completely new image that incorporates the requested changes while maintaining the style and overall composition of the original."

/-- Model of the JavaScript `replace(/\.[^/.]+$/, '')`: strip a trailing dot
followed by one or more characters none of which is a slash or a dot; leave
the string unchanged when no such suffix exists. -/
def stripTrailingExtension (s : String) : String :=
  let rev := s.data.reverse
  let ext := rev.takeWhile (fun c => !(c == '/' || c == '.'))
  if ext.isEmpty then s
  else
    match rev.drop ext.length with
    | '.' :: rest => String.mk rest.reverse
    | _ => s

/-- Model of `finalPath.toLowerCase().endsWith('.png')`. -/
def hasPngSuffixCI (s : String) : Bool :=
  (s.data.map Char.toLower).reverse.take 4 == "gnp.".data

/-- Normalization of a caller-requested output path: resolve relative paths
against the working directory, then force the `.png` extension (strip the
last extension and append `.png`) unless the path already ends in `.png`
case-insensitively. -/
def normalizeRequestedOutputPath (env : Env) (outputPath : String) : String :=
  let p := if isAbsolutePath outputPath then outputPath
           else pathJoin env.cwd outputPath
  if hasPngSuffixCI p then p else stripTrailingExtension p ++ ".png"

/-- The default save path of a generated image:
`~/Documents/nanobanana_generated/generated_<epoch-millis>.png`. -/
def generatedDefaultPath (env : Env) (now : Nat) : String :=
  pathJoin (defaultOutputDir env) ("generated_" ++ toString now ++ ".png")

/-- The default save path of an edited image:
`~/Documents/nanobanana_generated/<origName>_edited_<epoch-millis>.png`. -/
def editedDefaultPath (env : Env) (origName : String) (now : Nat) : String :=
  pathJoin (defaultOutputDir env) (origName ++ "_edited_" ++ toString now ++ ".png")

/-- The discriminated result of a generate/edit call, one constructor per
distinct return site of the source handler (error constructors carry the
leading message text; `saved` carries the saved path and the failed reference
images reported as warnings). -/
inductive ImageToolResult
  | invalidAspect (message : String)
  | missingAspect (message : String)
  | caughtError (message : String)
  | apiError (message : String)
  | noImage (message : String)
  | saved (finalPath : String) (failedReferenceImages : List (String × String))
deriving DecidableEq

/-- Observable outcome of a generate/edit call: the result, the post-call
image history of the session, and the backend invocations performed (each
with its ordered part list and aspect ratio). -/
structure ImageToolOutcome where
  result : ImageToolResult
  imageHistory : List ImageHistoryEntry
  calls : List (List GeminiImageRequestPart × String)
deriving DecidableEq

/-- Arguments of `gemini_generate_image` relevant to the modelled behavior. -/
structure GenerateArgs where
  prompt : String
  aspect_ratio : Option String
  output_path : Option String
  use_image_history : Bool
  reference_images : List String

/-- `gemini_generate_image`: validate a truthy explicit aspect ratio, resolve
the effective ratio (`aspect_ratio ?? context.aspectRatio`, error when both
are nullish), assemble the parts (manual reference images, then up to the
`MAX_REFERENCE_IMAGES` most recent history images when requested and
non-empty, then the prompt text with the consistency suffix exactly when
history images were included), invoke the backend, and on success save the
image and record it in the history. -/
def gemini_generate_image (env : Env) (context : ConversationContext)
    (args : GenerateArgs) (response : TransportResponse) (now : Nat)
    (newId : String) : ImageToolOutcome :=
  if jsTruthyString args.aspect_ratio
      && !(VALID_ASPECT_RATIOS.contains (args.aspect_ratio.getD "")) then
    { result := .invalidAspect ("Invalid aspect ratio: " ++ args.aspect_ratio.getD "")
      imageHistory := context.imageHistory
      calls := [] }
  else
    match args.aspect_ratio.or context.aspectRatio with
    | none =>
        { result := .missingAspect "Error: Aspect ratio not specified."
          imageHistory := context.imageHistory
          calls := [] }
    | some effectiveAspect =>
        let rp := buildGenerateReferenceParts env args.reference_images
        let useHistory := args.use_image_history && !context.imageHistory.isEmpty
        let historyParts : List GeminiImageRequestPart :=
          if useHistory then
            (context.imageHistory.drop
                (context.imageHistory.length - MAX_REFERENCE_IMAGES)).map
              (fun img => .inlineData img.mimeType img.base64Data)
          else []
        let finalPrompt :=
          if useHistory then args.prompt ++ CONSISTENCY_SUFFIX else args.prompt
        let parts := rp.1 ++ historyParts ++ [GeminiImageRequestPart.text finalPrompt]
        match callGeminiImageAPI response with
        | .error e =>
            { result := .caughtError ("Error generating image: " ++ e)
              imageHistory := context.imageHistory
              calls := [(parts, effectiveAspect)] }
        | .ok api =>
            match api.error with
            | some err =>
                { result := .apiError ("Image generation failed: " ++ err)
                  imageHistory := context.imageHistory
                  calls := [(parts, effectiveAspect)] }
            | none =>
                match api.imageData with
                | none =>
                    { result := .noImage "Image generation failed. No image returned from model"
                      imageHistory := context.imageHistory
                      calls := [(parts, effectiveAspect)] }
                | some imageData =>
                    let finalPath :=
                      if jsTruthyString args.output_path then
                        normalizeRequestedOutputPath env (args.output_path.getD "")
                      else generatedDefaultPath env now
                    { result := .saved finalPath rp.2
                      imageHistory := addImageToHistory context.imageHistory
                        { id := newId, filePath := finalPath
                          base64Data := imageData, mimeType := "image/png"
                          prompt := args.prompt, timestamp := now
                          type := .generated }
                      calls := [(parts, effectiveAspect)] }

/-- Arguments of `gemini_edit_image` relevant to the modelled behavior. -/
structure EditArgs where
  image_path : String
  edit_prompt : String
  aspect_ratio : Option String
  output_path : Option String
  reference_images : List String

/-- Assembly of the extra reference-image parts of an edit call (first 10
references, each resolved through the history then the filesystem with
basename fallback), with the failed references collected for the warning
report. -/
def buildEditReferenceParts (env : Env) (context : ConversationContext)
    (reference_images : List String) :
    List GeminiImageRequestPart × List (String × String) :=
  (reference_images.take 10).foldl
    (fun acc imgRef =>
      match getImageFromHistory context imgRef with
      | some refHistoryImage =>
          (acc.1 ++ [GeminiImageRequestPart.inlineData
              refHistoryImage.mimeType refHistoryImage.base64Data], acc.2)
      | none =>
          match resolveFilePathWithFallback env imgRef with
          | some pr =>
              (acc.1 ++ [GeminiImageRequestPart.inlineData "image/png" pr.2], acc.2)
          | none => (acc.1, acc.2 ++ [(imgRef, "file not found: " ++ imgRef)]))
    ([], [])

/-- Tail of `gemini_edit_image` once the aspect ratio and subject image have
been resolved: assemble the parts (extra reference images, then the editing
instruction text, then the subject image), invoke the backend, and on success
save the image and record it in the history. -/
def editAfterSubject (env : Env) (context : ConversationContext)
    (args : EditArgs) (response : TransportResponse) (now : Nat)
    (newId : String) (effectiveAspect : String) (imageBase64 : String)
    (origName : String) : ImageToolOutcome :=
  let rp := buildEditReferenceParts env context args.reference_images
  let editingPrompt :=
    "Based on this image, generate a new edited version with the following modifications: "
      ++ args.edit_prompt ++ EDIT_DIRECTIVE_SUFFIX
  let parts := rp.1 ++ [GeminiImageRequestPart.text editingPrompt,
    GeminiImageRequestPart.inlineData "image/png" imageBase64]
  match callGeminiImageAPI response with
  | .error e =>
      { result := .caughtError ("Error editing image: " ++ e)
        imageHistory := context.imageHistory
        calls := [(parts, effectiveAspect)] }
  | .ok api =>
      match api.error with
      | some err =>
          { result := .apiError ("Image editing failed: " ++ err)
            imageHistory := context.imageHistory
            calls := [(parts, effectiveAspect)] }
      | none =>
          match api.imageData with
          | none =>
              { result := .noImage "Image editing failed. No image returned from model"
                imageHistory := context.imageHistory
                calls := [(parts, effectiveAspect)] }
          | some imageData =>
              let finalPath :=
                if jsTruthyString args.output_path then
                  normalizeRequestedOutputPath env (args.output_path.getD "")
                else editedDefaultPath env origName now
              { result := .saved finalPath rp.2
                imageHistory := addImageToHistory context.imageHistory
                  { id := newId, filePath := finalPath
                    base64Data := imageData, mimeType := "image/png"
                    prompt := args.edit_prompt, timestamp := now
                    type := .edited }
                calls := [(parts, effectiveAspect)] }

/-- `gemini_edit_image`: validate a truthy explicit aspect ratio, resolve the
effective ratio, resolve the subject image (history reference first, then
filesystem path with basename fallback; failure throws `Image file not
found`, caught by the handler, before any backend invocation and before any
history mutation), then proceed with `editAfterSubject`. -/
def gemini_edit_image (env : Env) (context : ConversationContext)
    (args : EditArgs) (response : TransportResponse) (now : Nat)
    (newId : String) : ImageToolOutcome :=
  if jsTruthyString args.aspect_ratio
      && !(VALID_ASPECT_RATIOS.contains (args.aspect_ratio.getD "")) then
    { result := .invalidAspect ("Invalid aspect ratio: " ++ args.aspect_ratio.getD "")
      imageHistory := context.imageHistory
      calls := [] }
  else
    match args.aspect_ratio.or context.aspectRatio with
    | none =>
        { result := .missingAspect "Error: Aspect ratio not specified."
          imageHistory := context.imageHistory
          calls := [] }
    | some effectiveAspect =>
        match getImageFromHistory context args.image_path with
        | some historyImage =>
            editAfterSubject env context args response now newId effectiveAspect
              historyImage.base64Data ("history_" ++ historyImage.id)
        | none =>
            match resolveFilePathWithFallback env args.image_path with
            | none =>
                { result := .caughtError
                    ("Error editing image: Image file not found: " ++ args.image_path)
                  imageHistory := context.imageHistory
                  calls := [] }
            | some pr =>
                editAfterSubject env context args response now newId
                  effectiveAspect pr.2
                  (stripTrailingExtension (pathBasename args.image_path))

/-- A response part is well formed when it is a genuine one-of (at most one
payload field present, as the backend API produces) and a present image
payload is nonempty. -/
def WellFormedResponsePart (p : ResponsePart) : Prop :=
  (p.inlineData = none ∨ p.text = none) ∧ p.inlineData ≠ some ""

instance (p : ResponsePart) : Decidable (WellFormedResponsePart p) := by
  unfold WellFormedResponsePart
  infer_instance

instance {ε α : Type} [DecidableEq ε] [DecidableEq α] :
    DecidableEq (Except ε α) := fun a b =>
  match a, b with
  | .error e, .error f =>
      if h : e = f then isTrue (h ▸ rfl)
      else isFalse (fun hc => h (Except.error.inj hc))
  | .error _, .ok _ => isFalse (fun hc => Except.noConfusion hc)
  | .ok _, .error _ => isFalse (fun hc => Except.noConfusion hc)
  | .ok x, .ok y =>
      if h : x = y then isTrue (h ▸ rfl)
      else isFalse (fun hc => h (Except.ok.inj hc))

/-- Concrete environment used by closed counterexamples and witnesses:
`/cwd/a.png` is the only readable file. -/
def sampleEnv : Env :=
  { fs := fun p => if p = "/cwd/a.png" then some "IMGDATA" else none
    cwd := "/cwd"
    homeDir := "/home/user" }

/-- Concrete environment where the only readable file lives in the default
output directory, so only the basename fallback can find `img.png`. -/
def fallbackEnv : Env :=
  { fs := fun p =>
      if p = "/home/user/Documents/nanobanana_generated/img.png" then some "DATA"
      else none
    cwd := "/cwd"
    homeDir := "/home/user" }

/-- A fresh conversation context. -/
def emptyCtx : ConversationContext :=
  { history := [], imageHistory := [], aspectRatio := none }

/-- A fresh conversation context whose session aspect ratio is `"1:1"`. -/
def ctxWithRatio : ConversationContext :=
  { history := [], imageHistory := [], aspectRatio := some "1:1" }

/-- A concrete media record used by closed witnesses. -/
def sampleEntry : ImageHistoryEntry :=
  { id := "img_1", filePath := "/tmp/a.png", base64Data := "AAA"
    mimeType := "image/png", prompt := "A", timestamp := 1
    type := .generated }

/-- A context holding exactly one media record. -/
def ctxOneImage : ConversationContext :=
  { history := [], imageHistory := [sampleEntry], aspectRatio := some "1:1" }

/-- A transport response carrying one image chunk. -/
def okTransport : TransportResponse :=
  .success "raw" (some [{ parts := [{ text := none, inlineData := some "B64IMG" }] }])

/-- Generate arguments whose explicit aspect ratio is the empty string. -/
def genArgsEmptyRatio : GenerateArgs :=
  { prompt := "p", aspect_ratio := some "", output_path := none
    use_image_history := false, reference_images := [] }

/-- Generate arguments with a valid explicit ratio, consistency mode on, and
no manual reference images. -/
def genArgsHistory : GenerateArgs :=
  { prompt := "A", aspect_ratio := some "16:9", output_path := none
    use_image_history := true, reference_images := [] }

/-- Generate arguments with a requested relative output path `out.jpg`. -/
def genArgsOutJpg : GenerateArgs :=
  { prompt := "p", aspect_ratio := some "1:1", output_path := some "out.jpg"
    use_image_history := false, reference_images := [] }

/-- Edit arguments whose subject reference resolves nowhere in `sampleEnv`. -/
def editArgsMissing : EditArgs :=
  { image_path := "missing.png", edit_prompt := "e", aspect_ratio := none
    output_path := none, reference_images := [] }

/-- Edit arguments whose subject is the readable file `/cwd/a.png` and whose
only extra reference image resolves nowhere. -/
def editArgsSubject : EditArgs :=
  { image_path := "a.png", edit_prompt := "e", aspect_ratio := none
    output_path := none, reference_images := ["gone.png"] }

theorem tail_append_of_ne_nil {α : Type} (l₁ l₂ : List α) (h : l₁ ≠ []) :
    (l₁ ++ l₂).tail = l₁.tail ++ l₂ := by
  cases l₁ with
  | nil => exact absurd rfl h
  | cons a t => simp

theorem runImageHistory_append (es : List ImageHistoryEntry)
    (e : ImageHistoryEntry) :
    runImageHistory (es ++ [e]) = addImageToHistory (runImageHistory es) e := by
  simp [runImageHistory, List.foldl_append]

theorem runImageHistory_eq_drop (entries : List ImageHistoryEntry) :
    runImageHistory entries
      = entries.drop (entries.length - MAX_IMAGE_HISTORY) := by
  induction entries using List.reverseRecOn with
  | nil => rfl
  | append_singleton es e ih =>
      rw [runImageHistory_append, ih]
      by_cases h : es.length < MAX_IMAGE_HISTORY
      · have hk : es.length - MAX_IMAGE_HISTORY = 0 := by omega
        have hk2 : (es ++ [e]).length - MAX_IMAGE_HISTORY = 0 := by
          simp only [List.length_append, List.length_cons, List.length_nil]
          omega
        rw [hk, hk2]
        simp only [List.drop_zero, addImageToHistory]
        rw [if_neg]
        simp only [List.length_append, List.length_cons, List.length_nil]
        omega
      · push_neg at h
        have hlen : (es.drop (es.length - MAX_IMAGE_HISTORY)).length
            = MAX_IMAGE_HISTORY := by
          simp only [List.length_drop]; omega
        have hM : 0 < MAX_IMAGE_HISTORY := by
          simp only [MAX_IMAGE_HISTORY]; omega
        have hne : es.drop (es.length - MAX_IMAGE_HISTORY) ≠ [] := by
          intro hnil
          rw [hnil] at hlen
          simp only [List.length_nil] at hlen
          omega
        simp only [addImageToHistory]
        rw [if_pos]
        · rw [tail_append_of_ne_nil _ _ hne, List.tail_drop]
          have hk3 : (es ++ [e]).length - MAX_IMAGE_HISTORY
              = (es.length - MAX_IMAGE_HISTORY) + 1 := by
            simp only [List.length_append, List.length_cons, List.length_nil]
            omega
          rw [hk3, List.drop_append_of_le_length (by omega)]
        · simp only [List.length_append, List.length_cons, List.length_nil, hlen]
          omega

/-- C1: for every session, after any sequence of successful generate/edit
calls recording the given entries in order into a fresh context, the image
history length is at most `MAX_IMAGE_HISTORY = 10`, equals `min N 10`, and
the retained records are exactly the most recent entries in call order
(oldest evicted first). -/
theorem imageHistory_bound_and_retention (entries : List ImageHistoryEntry) :
    (runImageHistory entries).length ≤ MAX_IMAGE_HISTORY ∧
    (runImageHistory entries).length = min entries.length MAX_IMAGE_HISTORY ∧
    runImageHistory entries
      = entries.drop (entries.length - MAX_IMAGE_HISTORY) := by
  refine ⟨?_, ?_, runImageHistory_eq_drop entries⟩ <;>
    rw [runImageHistory_eq_drop] <;> simp only [List.length_drop] <;> omega

/-- C10: a chat call appends the user turn (message text plus resolved image
parts) to the transcript before the backend is invoked, so when the backend
call fails the user turn remains in the transcript with no paired model turn
and the transcript is mutated even though the operation returns an error. -/
theorem chat_transcript_mutated_on_backend_error (env : Env)
    (ctx : ConversationContext) (message : String) (images : List String)
    (e : String) :
    (gemini_chat env ctx message images (Except.error e)).history
      = ctx.history
        ++ [{ role := .user
              parts := (buildChatMessageParts env ctx message images).1 }] ∧
    (gemini_chat env ctx message images (Except.error e)).history
      ≠ ctx.history ∧
    (gemini_chat env ctx message images (Except.error e)).result
      = Except.error ("Error: " ++ e) := by
  refine ⟨rfl, ?_, rfl⟩
  intro hcontra
  have hlen := congrArg List.length hcontra
  simp only [gemini_chat, List.length_append, List.length_cons,
    List.length_nil] at hlen
  omega

theorem chat_fold_spec (env : Env) (ctx : ConversationContext)
    (refs : List String) (acc : List SdkPart × List (String × String)) :
    refs.foldl
      (fun acc imgRef =>
        match resolveChatImage env ctx imgRef with
        | .ok part => (acc.1 ++ [part], acc.2)
        | .error reason => (acc.1, acc.2 ++ [(imgRef, reason)])) acc
    = (acc.1 ++ refs.filterMap (fun r => (resolveChatImage env ctx r).toOption),
       acc.2 ++ refs.filterMap (fun r =>
          match resolveChatImage env ctx r with
          | .ok _ => none
          | .error reason => some (r, reason))) := by
  induction refs generalizing acc with
  | nil => simp
  | cons r t ih =>
      cases hr : resolveChatImage env ctx r with
      | ok p =>
          simp only [List.foldl_cons, hr, ih, List.filterMap_cons,
            Except.toOption, List.append_assoc, List.singleton_append]
      | error reason =>
          simp only [List.foldl_cons, hr, ih, List.filterMap_cons,
            Except.toOption, List.append_assoc, List.singleton_append]

/-- C7 counterexample: in a chat call with one successfully resolved image,
the assembled parts put the message text FIRST and the image after it, so
the message text is not the final part as the claim states. -/
theorem chat_text_part_first_counterexample :
    (buildChatMessageParts sampleEnv emptyCtx "hello" ["a.png"]).1
      = [SdkPart.text "hello", SdkPart.inlineData "image/png" "IMGDATA"] ∧
    (buildChatMessageParts sampleEnv emptyCtx "hello" ["a.png"]).1.getLast?
      ≠ some (SdkPart.text "hello") := by
  constructor
  · decide
  · decide

/-- C7 corrected: the parts of the new chat turn are the message text FIRST,
followed by the successfully resolved images in caller-supplied order,
limited to the first 10 when more are supplied; per-image resolution
failures are collected as warnings with the failed images omitted; and the
prior transcript is replayed to the backend as context ahead of this turn. -/
theorem chat_parts_order_amended (env : Env) (ctx : ConversationContext)
    (message : String) (images : List String) :
    (buildChatMessageParts env ctx message images).1
      = SdkPart.text message
        :: (images.take 10).filterMap
            (fun r => (resolveChatImage env ctx r).toOption) ∧
    (buildChatMessageParts env ctx message images).2
      = (images.take 10).filterMap (fun r =>
          match resolveChatImage env ctx r with
          | .ok _ => none
          | .error reason => some (r, reason)) ∧
    ∀ backend,
      (gemini_chat env ctx message images backend).sentHistory = ctx.history ∧
      (gemini_chat env ctx message images backend).sentParts
        = (buildChatMessageParts env ctx message images).1 := by
  have h := chat_fold_spec env ctx (images.take 10) ([SdkPart.text message], [])
  refine ⟨?_, ?_, ?_⟩
  · show ((images.take 10).foldl _ ([SdkPart.text message], [])).1 = _
    rw [h]
    simp
  · show ((images.take 10).foldl _ ([SdkPart.text message], [])).2 = _
    rw [h]
    simp
  · intro backend
    cases backend <;>
      exact ⟨by simp [gemini_chat], rfl⟩

theorem history_append_data_take (s : String) :
    ("history:" ++ s).data.take 8 = "history:".data := by
  rw [String.data_append]
  have h8 : ("history:".data).length = 8 := rfl
  rw [← h8, List.take_left]

theorem history_append_data_drop (s : String) :
    ("history:" ++ s).data.drop 8 = s.data := by
  rw [String.data_append]
  have h8 : ("history:".data).length = 8 := rfl
  rw [← h8, List.drop_left]

theorem history_append_ne_last (s : String) :
    (("history:" ++ s) == "last") = false := by
  rw [beq_eq_false_iff_ne]
  intro hcontra
  have hlen := congrArg (fun t => t.data.length) hcontra
  simp only [String.data_append, List.length_append] at hlen
  have h8 : ("history:".data).length = 8 := rfl
  have h4 : ("last".data).length = 4 := rfl
  rw [h8, h4] at hlen
  omega

theorem get?_length_sub_one_eq_getLast? {α : Type} (l : List α) :
    l.get? (l.length - 1) = l.getLast? := by
  cases l with
  | nil => rfl
  | cons a t =>
      simp [List.getLast?_eq_getElem?, List.get?_eq_getElem?]

/-- C3: looking up `"last"` returns the most recently inserted media record
and is `none` exactly when the history is empty; looking up `"history:" ++ s`
with a digit suffix denoting `k` returns the `k`-th record by zero-based
insertion order when in range and `none` when out of range; a non-numeric or
negative suffix is not resolved from history (`none`), and at the chat call
site such a reference falls through to filesystem-path resolution rather
than raising a syntax error. -/
theorem history_reference_grammar (env : Env) (ctx : ConversationContext) :
    (getImageFromHistory ctx "last" = ctx.imageHistory.getLast?) ∧
    (getImageFromHistory ctx "last" = none ↔ ctx.imageHistory = []) ∧
    (∀ s : String, ∀ k : Nat, digitSuffixToNat s.data = some k →
      getImageFromHistory ctx ("history:" ++ s) = ctx.imageHistory.get? k) ∧
    (∀ s : String, ∀ k : Nat, digitSuffixToNat s.data = some k →
      ctx.imageHistory.length ≤ k →
      getImageFromHistory ctx ("history:" ++ s) = none) ∧
    (∀ s : String, digitSuffixToNat s.data = none →
      getImageFromHistory ctx ("history:" ++ s) = none ∧
      resolveChatImage env ctx ("history:" ++ s)
        = (match resolveFilePathWithFallback env ("history:" ++ s) with
           | some pr => Except.ok (SdkPart.inlineData "image/png" pr.2)
           | none => Except.error ("file not found: " ++ ("history:" ++ s)))) := by
  have hlast : getImageFromHistory ctx "last" = ctx.imageHistory.getLast? := by
    by_cases hemp : ctx.imageHistory = []
    · simp [getImageFromHistory, hemp]
    · have hne : ctx.imageHistory.isEmpty = false := by
        simp [List.isEmpty_iff, hemp]
      simp only [getImageFromHistory, hne, Bool.false_eq_true, if_false,
        beq_self_eq_true, if_true]
      exact get?_length_sub_one_eq_getLast? ctx.imageHistory
  have hdigit : ∀ s : String, ∀ k : Nat, digitSuffixToNat s.data = some k →
      getImageFromHistory ctx ("history:" ++ s) = ctx.imageHistory.get? k := by
    intro s k hk
    by_cases hemp : ctx.imageHistory = []
    · simp [getImageFromHistory, hemp]
    · have hne : ctx.imageHistory.isEmpty = false := by
        simp [List.isEmpty_iff, hemp]
      simp only [getImageFromHistory, hne, Bool.false_eq_true, if_false,
        history_append_ne_last, history_append_data_take,
        history_append_data_drop, beq_self_eq_true, if_true, hk]
  have hnonum : ∀ s : String, digitSuffixToNat s.data = none →
      getImageFromHistory ctx ("history:" ++ s) = none := by
    intro s hs
    by_cases hemp : ctx.imageHistory = []
    · simp [getImageFromHistory, hemp]
    · have hne : ctx.imageHistory.isEmpty = false := by
        simp [List.isEmpty_iff, hemp]
      simp only [getImageFromHistory, hne, Bool.false_eq_true, if_false,
        history_append_ne_last, history_append_data_take,
        history_append_data_drop, beq_self_eq_true, if_true, hs]
  refine ⟨hlast, ?_, hdigit, ?_, ?_⟩
  · rw [hlast]
    exact List.getLast?_eq_none_iff
  · intro s k hk hlen
    rw [hdigit s k hk]
    simp [List.get?_eq_getElem?, List.getElem?_eq_none hlen]
  · intro s hs
    refine ⟨hnonum s hs, ?_⟩
    simp only [resolveChatImage, hnonum s hs]

/-- Closed witness for the C3 theorem at a one-record history. -/
theorem history_reference_grammar_witness :
    getImageFromHistory ctxOneImage "last" = some sampleEntry ∧
    getImageFromHistory ctxOneImage ("history:" ++ "0") = some sampleEntry ∧
    getImageFromHistory ctxOneImage ("history:" ++ "1") = none ∧
    getImageFromHistory ctxOneImage ("history:" ++ "-1") = none := by
  have h := history_reference_grammar sampleEnv ctxOneImage
  refine ⟨h.1.trans (by decide), ?_, ?_, ?_⟩
  · exact (h.2.2.1 "0" 0 (by decide)).trans (by decide)
  · exact h.2.2.2.1 "1" 1 (by decide) (by decide)
  · exact (h.2.2.2.2 "-1" (by decide)).1

/-- C8 counterexample: a reference that only exists (under its basename) in
the default output directory is found by the chat/edit resolver through the
basename fallback, but the generate-tool reference-image resolution has no
fallback (and no history lookup): the same reference fails there and is
reported as a failed reference image. -/
theorem generate_reference_no_fallback_counterexample :
    resolveGenerateReferenceImage fallbackEnv "img.png" = none ∧
    resolveFilePathWithFallback fallbackEnv "img.png"
      = some ("/home/user/Documents/nanobanana_generated/img.png", "DATA") ∧
    (buildGenerateReferenceParts fallbackEnv ["img.png"]).1 = [] ∧
    (buildGenerateReferenceParts fallbackEnv ["img.png"]).2
      = [("img.png", "file not found: img.png")] ∧
    (buildChatMessageParts fallbackEnv emptyCtx "m" ["img.png"]).1
      = [SdkPart.text "m", SdkPart.inlineData "image/png" "DATA"] := by
  refine ⟨by decide, by decide, by decide, by decide, by decide⟩

/-- C8 corrected: for chat images, the edit subject, and edit reference
images, a reference not found in session history is resolved as a filesystem
path (against the working directory when relative), and when that path does
not exist resolution is retried with only the basename inside the fixed
default output directory, failing only if that also fails; generate-tool
reference images however are resolved only against the direct path, with no
basename fallback. -/
theorem reference_path_fallback_amended (env : Env)
    (ctx : ConversationContext) (ref : String) :
    (∀ d, env.fs (if isAbsolutePath ref then ref else pathJoin env.cwd ref)
        = some d →
      resolveFilePathWithFallback env ref
        = some ((if isAbsolutePath ref then ref else pathJoin env.cwd ref), d)) ∧
    (env.fs (if isAbsolutePath ref then ref else pathJoin env.cwd ref) = none →
      ∀ d, env.fs (pathJoin (defaultOutputDir env) (pathBasename ref))
          = some d →
        resolveFilePathWithFallback env ref
          = some (pathJoin (defaultOutputDir env) (pathBasename ref), d)) ∧
    (env.fs (if isAbsolutePath ref then ref else pathJoin env.cwd ref) = none →
      env.fs (pathJoin (defaultOutputDir env) (pathBasename ref)) = none →
      resolveFilePathWithFallback env ref = none ∧
      (getImageFromHistory ctx ref = none →
        resolveChatImage env ctx ref
          = Except.error ("file not found: " ++ ref))) ∧
    resolveGenerateReferenceImage env ref
      = env.fs (if isAbsolutePath ref then ref else pathJoin env.cwd ref) := by
  refine ⟨?_, ?_, ?_, rfl⟩
  · intro d hd
    simp only [resolveFilePathWithFallback, hd]
  · intro h1 d hd
    simp only [resolveFilePathWithFallback, h1, hd]
  · intro h1 h2
    have hmain : resolveFilePathWithFallback env ref = none := by
      simp only [resolveFilePathWithFallback, h1, h2]
    refine ⟨hmain, fun hh => ?_⟩
    simp only [resolveChatImage, hh, hmain]

/-- Closed witness for the amended C8 theorem: the basename fallback locates
`a/b/img.png` under its basename in the default output directory. -/
theorem reference_path_fallback_amended_witness :
    resolveFilePathWithFallback fallbackEnv "a/b/img.png"
      = some ("/home/user/Documents/nanobanana_generated/img.png", "DATA") := by
  have h := (reference_path_fallback_amended fallbackEnv emptyCtx "a/b/img.png").2.1
  exact h (by decide) "DATA" (by decide)

theorem gemini_generate_image_calls_eq (env : Env) (ctx : ConversationContext)
    (args : GenerateArgs) (response : TransportResponse) (now : Nat)
    (newId : String) (s : String)
    (hv : (jsTruthyString args.aspect_ratio
        && !(VALID_ASPECT_RATIOS.contains (args.aspect_ratio.getD ""))) = false)
    (hr : args.aspect_ratio.or ctx.aspectRatio = some s) :
    (gemini_generate_image env ctx args response now newId).calls
      = [((buildGenerateReferenceParts env args.reference_images).1
          ++ (if args.use_image_history && !ctx.imageHistory.isEmpty then
                (ctx.imageHistory.drop
                    (ctx.imageHistory.length - MAX_REFERENCE_IMAGES)).map
                  (fun img =>
                    GeminiImageRequestPart.inlineData img.mimeType img.base64Data)
              else [])
          ++ [GeminiImageRequestPart.text
                (if args.use_image_history && !ctx.imageHistory.isEmpty then
                   args.prompt ++ CONSISTENCY_SUFFIX else args.prompt)], s)] := by
  simp only [gemini_generate_image, hv, Bool.false_eq_true, if_false, hr]
  cases hc : callGeminiImageAPI response with
  | error e => simp
  | ok api =>
      rcases api with ⟨imgD, txt, err⟩
      cases err <;> cases imgD <;> simp

theorem editAfterSubject_calls (env : Env) (ctx : ConversationContext)
    (args : EditArgs) (response : TransportResponse) (now : Nat)
    (newId : String) (a b64 orig : String) :
    (editAfterSubject env ctx args response now newId a b64 orig).calls
      = [((buildEditReferenceParts env ctx args.reference_images).1
          ++ [GeminiImageRequestPart.text
                ("Based on this image, generate a new edited version with the following modifications: "
                  ++ args.edit_prompt ++ EDIT_DIRECTIVE_SUFFIX),
              GeminiImageRequestPart.inlineData "image/png" b64], a)] := by
  simp only [editAfterSubject]
  cases hc : callGeminiImageAPI response with
  | error e => simp
  | ok api =>
      rcases api with ⟨imgD, txt, err⟩
      cases err <;> cases imgD <;> simp

theorem gemini_edit_image_calls_eq (env : Env) (ctx : ConversationContext)
    (eargs : EditArgs) (response : TransportResponse) (now : Nat)
    (newId : String) (s : String)
    (hv : (jsTruthyString eargs.aspect_ratio
        && !(VALID_ASPECT_RATIOS.contains (eargs.aspect_ratio.getD ""))) = false)
    (hr : eargs.aspect_ratio.or ctx.aspectRatio = some s) :
    ((gemini_edit_image env ctx eargs response now newId).calls = [] ∧
      getImageFromHistory ctx eargs.image_path = none ∧
      resolveFilePathWithFallback env eargs.image_path = none) ∨
    (∃ parts, (gemini_edit_image env ctx eargs response now newId).calls
        = [(parts, s)]) := by
  simp only [gemini_edit_image, hv, Bool.false_eq_true, if_false, hr]
  cases hg : getImageFromHistory ctx eargs.image_path with
  | some hi =>
      right
      exact ⟨_, editAfterSubject_calls env ctx eargs response now newId s
        hi.base64Data ("history_" ++ hi.id)⟩
  | none =>
      cases hf : resolveFilePathWithFallback env eargs.image_path with
      | none => left; exact ⟨rfl, rfl, rfl⟩
      | some pr =>
          right
          exact ⟨_, editAfterSubject_calls env ctx eargs response now newId s
            pr.2 (stripTrailingExtension (pathBasename eargs.image_path))⟩

/-- C2 counterexample: an explicitly supplied EMPTY aspect-ratio string is
not a member of the valid-ratio enum, yet it does not produce an
invalid-argument error: the JavaScript truthiness guard skips validation,
the nullish-coalescing step keeps the empty string over the (valid) session
default, and the backend is invoked with the ratio `""`. -/
theorem aspect_ratio_empty_string_counterexample :
    VALID_ASPECT_RATIOS.contains "" = false ∧
    (gemini_generate_image sampleEnv ctxWithRatio genArgsEmptyRatio
        okTransport 7 "id1").calls
      = [([GeminiImageRequestPart.text "p"], "")] ∧
    (gemini_generate_image sampleEnv ctxWithRatio genArgsEmptyRatio
        okTransport 7 "id1").result
      = .saved "/home/user/Documents/nanobanana_generated/generated_7.png" [] := by
  refine ⟨by decide, by decide, by decide⟩

/-- C2 corrected: a NON-EMPTY explicit per-call ratio is validated against
the ten-member enum (invalid gives the invalid-argument error before any
backend call, regardless of the session default; valid is used as the
effective ratio); an explicit EMPTY-STRING ratio bypasses both the
validation and the session default and reaches the backend as `""`; with no
explicit ratio the session default is used; with neither, the call aborts
with the missing-configuration error and no backend call is made.  Edit
calls resolve identically: in each of the three backend-reaching branches
(valid non-empty explicit, empty-string explicit, session default) the edit
call either aborts because its subject resolves nowhere (no backend call)
or invokes the backend exactly once with that resolved ratio. -/
theorem aspect_ratio_resolution_amended (env : Env)
    (ctx : ConversationContext) (args : GenerateArgs) (eargs : EditArgs)
    (response : TransportResponse) (now : Nat) (newId : String) :
    (∀ s, args.aspect_ratio = some s → s ≠ "" → s ∉ VALID_ASPECT_RATIOS →
      (gemini_generate_image env ctx args response now newId).result
          = .invalidAspect ("Invalid aspect ratio: " ++ s) ∧
      (gemini_generate_image env ctx args response now newId).calls = []) ∧
    (∀ s, args.aspect_ratio = some s → s ≠ "" → s ∈ VALID_ASPECT_RATIOS →
      ∃ parts, (gemini_generate_image env ctx args response now newId).calls
        = [(parts, s)]) ∧
    (args.aspect_ratio = some "" →
      ∃ parts, (gemini_generate_image env ctx args response now newId).calls
        = [(parts, "")]) ∧
    (∀ r, args.aspect_ratio = none → ctx.aspectRatio = some r →
      ∃ parts, (gemini_generate_image env ctx args response now newId).calls
        = [(parts, r)]) ∧
    (args.aspect_ratio = none → ctx.aspectRatio = none →
      (gemini_generate_image env ctx args response now newId).result
          = .missingAspect "Error: Aspect ratio not specified." ∧
      (gemini_generate_image env ctx args response now newId).calls = []) ∧
    (∀ s, eargs.aspect_ratio = some s → s ≠ "" → s ∉ VALID_ASPECT_RATIOS →
      (gemini_edit_image env ctx eargs response now newId).result
          = .invalidAspect ("Invalid aspect ratio: " ++ s) ∧
      (gemini_edit_image env ctx eargs response now newId).calls = []) ∧
    (∀ s, eargs.aspect_ratio = some s → s ≠ "" → s ∈ VALID_ASPECT_RATIOS →
      ((gemini_edit_image env ctx eargs response now newId).calls = [] ∧
        getImageFromHistory ctx eargs.image_path = none ∧
        resolveFilePathWithFallback env eargs.image_path = none) ∨
      (∃ parts, (gemini_edit_image env ctx eargs response now newId).calls
          = [(parts, s)])) ∧
    (eargs.aspect_ratio = some "" →
      ((gemini_edit_image env ctx eargs response now newId).calls = [] ∧
        getImageFromHistory ctx eargs.image_path = none ∧
        resolveFilePathWithFallback env eargs.image_path = none) ∨
      (∃ parts, (gemini_edit_image env ctx eargs response now newId).calls
          = [(parts, "")])) ∧
    (∀ r, eargs.aspect_ratio = none → ctx.aspectRatio = some r →
      ((gemini_edit_image env ctx eargs response now newId).calls = [] ∧
        getImageFromHistory ctx eargs.image_path = none ∧
        resolveFilePathWithFallback env eargs.image_path = none) ∨
      (∃ parts, (gemini_edit_image env ctx eargs response now newId).calls
          = [(parts, r)])) ∧
    (eargs.aspect_ratio = none → ctx.aspectRatio = none →
      (gemini_edit_image env ctx eargs response now newId).result
          = .missingAspect "Error: Aspect ratio not specified." ∧
      (gemini_edit_image env ctx eargs response now newId).calls = []) := by
  refine ⟨?_, ?_, ?_, ?_, ?_, ?_, ?_, ?_, ?_, ?_⟩
  · intro s hs hne hninv
    constructor <;> simp [gemini_generate_image, hs, jsTruthyString, hne, hninv]
  · intro s hs hne hval
    have hv : (jsTruthyString args.aspect_ratio
        && !(VALID_ASPECT_RATIOS.contains (args.aspect_ratio.getD ""))) = false := by
      rw [hs]
      simp [jsTruthyString, hval]
    have hr : args.aspect_ratio.or ctx.aspectRatio = some s := by rw [hs]; rfl
    exact ⟨_, gemini_generate_image_calls_eq env ctx args response now newId s hv hr⟩
  · intro hs
    have hv : (jsTruthyString args.aspect_ratio
        && !(VALID_ASPECT_RATIOS.contains (args.aspect_ratio.getD ""))) = false := by
      rw [hs]; rfl
    have hr : args.aspect_ratio.or ctx.aspectRatio = some "" := by rw [hs]; rfl
    exact ⟨_, gemini_generate_image_calls_eq env ctx args response now newId "" hv hr⟩
  · intro r hn hctx
    have hv : (jsTruthyString args.aspect_ratio
        && !(VALID_ASPECT_RATIOS.contains (args.aspect_ratio.getD ""))) = false := by
      rw [hn]; rfl
    have hr : args.aspect_ratio.or ctx.aspectRatio = some r := by
      rw [hn, hctx]; rfl
    exact ⟨_, gemini_generate_image_calls_eq env ctx args response now newId r hv hr⟩
  · intro hn hctx
    have hv : (jsTruthyString args.aspect_ratio
        && !(VALID_ASPECT_RATIOS.contains (args.aspect_ratio.getD ""))) = false := by
      rw [hn]; rfl
    have hr : args.aspect_ratio.or ctx.aspectRatio = none := by
      rw [hn, hctx]; rfl
    constructor <;> simp [gemini_generate_image, hr, hn, hctx, jsTruthyString]
  · intro s hs hne hninv
    constructor <;> simp [gemini_edit_image, hs, jsTruthyString, hne, hninv]
  · intro s hs hne hval
    have hv : (jsTruthyString eargs.aspect_ratio
        && !(VALID_ASPECT_RATIOS.contains (eargs.aspect_ratio.getD ""))) = false := by
      rw [hs]
      simp [jsTruthyString, hval]
    have hr : eargs.aspect_ratio.or ctx.aspectRatio = some s := by rw [hs]; rfl
    exact gemini_edit_image_calls_eq env ctx eargs response now newId s hv hr
  · intro hs
    have hv : (jsTruthyString eargs.aspect_ratio
        && !(VALID_ASPECT_RATIOS.contains (eargs.aspect_ratio.getD ""))) = false := by
      rw [hs]; rfl
    have hr : eargs.aspect_ratio.or ctx.aspectRatio = some "" := by
      rw [hs]; rfl
    exact gemini_edit_image_calls_eq env ctx eargs response now newId "" hv hr
  · intro r hn hctx
    have hv : (jsTruthyString eargs.aspect_ratio
        && !(VALID_ASPECT_RATIOS.contains (eargs.aspect_ratio.getD ""))) = false := by
      rw [hn]; rfl
    have hr : eargs.aspect_ratio.or ctx.aspectRatio = some r := by
      rw [hn, hctx]; rfl
    exact gemini_edit_image_calls_eq env ctx eargs response now newId r hv hr
  · intro hn hctx
    have hv : (jsTruthyString eargs.aspect_ratio
        && !(VALID_ASPECT_RATIOS.contains (eargs.aspect_ratio.getD ""))) = false := by
      rw [hn]; rfl
    have hr : eargs.aspect_ratio.or ctx.aspectRatio = none := by
      rw [hn, hctx]; rfl
    constructor <;> simp [gemini_edit_image, hr, hn, hctx, jsTruthyString]

/-- Closed witness for the amended C2 theorem: a valid explicit ratio leads
to exactly one generate backend call, and an edit call with no explicit
ratio but a session default and a resolvable subject also invokes the
backend exactly once. -/
theorem aspect_ratio_resolution_amended_witness :
    (gemini_generate_image sampleEnv emptyCtx genArgsHistory okTransport 7
        "id2").calls.length = 1 ∧
    (gemini_edit_image sampleEnv ctxWithRatio editArgsSubject okTransport 7
        "id2e").calls.length = 1 := by
  constructor
  · have h := (aspect_ratio_resolution_amended sampleEnv emptyCtx
      genArgsHistory editArgsMissing okTransport 7 "id2").2.1
    obtain ⟨parts, hp⟩ := h "16:9" rfl (by decide) (by decide)
    rw [hp]
    rfl
  · have h := (aspect_ratio_resolution_amended sampleEnv ctxWithRatio
      genArgsHistory editArgsSubject okTransport 7 "id2e").2.2.2.2.2.2.2.2.1
    rcases h "1:1" rfl rfl with ⟨hc, hg, hf⟩ | ⟨parts, hp⟩
    · exact absurd hf (by decide)
    · rw [hp]
      rfl

/-- C5: an edit call whose subject reference resolves neither from history
nor from the filesystem (including the basename fallback) fails with the
not-found error before any backend invocation and before any history
mutation; failures of the optional extra reference images are instead
non-fatal: they are only collected as warnings and the call still succeeds
when the backend returns an image. -/
theorem edit_subject_resolution_fatal (env : Env) (ctx : ConversationContext)
    (eargs : EditArgs) (response : TransportResponse) (now : Nat)
    (newId : String) (s : String)
    (hv : (jsTruthyString eargs.aspect_ratio
        && !(VALID_ASPECT_RATIOS.contains (eargs.aspect_ratio.getD ""))) = false)
    (hr : eargs.aspect_ratio.or ctx.aspectRatio = some s) :
    (getImageFromHistory ctx eargs.image_path = none →
      resolveFilePathWithFallback env eargs.image_path = none →
      (gemini_edit_image env ctx eargs response now newId).result
          = .caughtError
              ("Error editing image: Image file not found: " ++ eargs.image_path) ∧
      (gemini_edit_image env ctx eargs response now newId).calls = [] ∧
      (gemini_edit_image env ctx eargs response now newId).imageHistory
          = ctx.imageHistory) ∧
    (∀ pr, getImageFromHistory ctx eargs.image_path = none →
      resolveFilePathWithFallback env eargs.image_path = some pr →
      ∀ d txt, callGeminiImageAPI response
          = .ok { imageData := some d, textResponse := txt, error := none } →
      ∃ finalPath,
        (gemini_edit_image env ctx eargs response now newId).result
          = .saved finalPath
              (buildEditReferenceParts env ctx eargs.reference_images).2) := by
  constructor
  · intro hh hf
    refine ⟨?_, ?_, ?_⟩ <;>
      simp only [gemini_edit_image, hv, Bool.false_eq_true, if_false, hr, hh, hf]
  · intro pr hh hf d txt hapi
    simp only [gemini_edit_image, hv, Bool.false_eq_true, if_false, hr, hh, hf,
      editAfterSubject, hapi]
    exact ⟨_, rfl⟩

/-- Closed witness for the C5 theorem: an unresolvable subject aborts with an
unchanged (empty) history and no backend call. -/
theorem edit_subject_resolution_fatal_witness :
    (gemini_edit_image sampleEnv ctxWithRatio editArgsMissing okTransport 7
        "id3").calls = [] ∧
    (gemini_edit_image sampleEnv ctxWithRatio editArgsMissing okTransport 7
        "id3").imageHistory = [] := by
  have h := (edit_subject_resolution_fatal sampleEnv ctxWithRatio
    editArgsMissing okTransport 7 "id3" "1:1" rfl rfl).1 (by decide) (by decide)
  exact ⟨h.2.1, h.2.2.trans rfl⟩

theorem generate_fold_spec (env : Env) (refs : List String)
    (acc : List GeminiImageRequestPart × List (String × String)) :
    refs.foldl
      (fun acc imgPath =>
        match resolveGenerateReferenceImage env imgPath with
        | some base64 =>
            (acc.1 ++ [GeminiImageRequestPart.inlineData "image/png" base64], acc.2)
        | none => (acc.1, acc.2 ++ [(imgPath, "file not found: " ++ imgPath)])) acc
    = (acc.1 ++ refs.filterMap (fun p =>
          (resolveGenerateReferenceImage env p).map
            (fun b64 => GeminiImageRequestPart.inlineData "image/png" b64)),
       acc.2 ++ refs.filterMap (fun p =>
          match resolveGenerateReferenceImage env p with
          | some _ => none
          | none => some (p, "file not found: " ++ p))) := by
  induction refs generalizing acc with
  | nil => simp
  | cons r t ih =>
      cases hr : resolveGenerateReferenceImage env r with
      | some b64 =>
          simp only [List.foldl_cons, hr, ih, List.filterMap_cons, Option.map,
            List.append_assoc, List.singleton_append]
      | none =>
          simp only [List.foldl_cons, hr, ih, List.filterMap_cons, Option.map,
            List.append_assoc, List.singleton_append]

theorem buildGenerateReferenceParts_eq (env : Env) (refs : List String) :
    buildGenerateReferenceParts env refs
      = (refs.filterMap (fun p =>
            (resolveGenerateReferenceImage env p).map
              (fun b64 => GeminiImageRequestPart.inlineData "image/png" b64)),
         refs.filterMap (fun p =>
            match resolveGenerateReferenceImage env p with
            | some _ => none
            | none => some (p, "file not found: " ++ p))) := by
  show refs.foldl _ ([], []) = _
  rw [generate_fold_spec]
  simp

/-- C4: in a generate call whose ratio resolves, the assembled request parts
are, in order: the successfully resolved manual reference images, then the
most recent at most `MAX_REFERENCE_IMAGES = 3` history records (a suffix of
the history, included exactly when consistency mode is requested and the
history is non-empty), then the prompt text, which carries the appended
consistency instruction exactly when history images were included. -/
theorem generate_request_parts_order (env : Env) (ctx : ConversationContext)
    (args : GenerateArgs) (response : TransportResponse) (now : Nat)
    (newId : String) (s : String)
    (hv : (jsTruthyString args.aspect_ratio
        && !(VALID_ASPECT_RATIOS.contains (args.aspect_ratio.getD ""))) = false)
    (hr : args.aspect_ratio.or ctx.aspectRatio = some s) :
    ∃ histEntries : List ImageHistoryEntry,
      histEntries <:+ ctx.imageHistory ∧
      ((args.use_image_history = true ∧ ctx.imageHistory ≠ []) →
        histEntries.length = min MAX_REFERENCE_IMAGES ctx.imageHistory.length) ∧
      ((args.use_image_history = true ∧ ctx.imageHistory ≠ []) ↔
        histEntries ≠ []) ∧
      (gemini_generate_image env ctx args response now newId).calls
        = [((args.reference_images.filterMap (fun p =>
              (resolveGenerateReferenceImage env p).map
                (fun b64 => GeminiImageRequestPart.inlineData "image/png" b64)))
            ++ histEntries.map (fun img =>
                GeminiImageRequestPart.inlineData img.mimeType img.base64Data)
            ++ [GeminiImageRequestPart.text
                  (if args.use_image_history = true ∧ ctx.imageHistory ≠ [] then
                     args.prompt ++ CONSISTENCY_SUFFIX
                   else args.prompt)], s)] := by
  by_cases hcond : args.use_image_history = true ∧ ctx.imageHistory ≠ []
  · refine ⟨ctx.imageHistory.drop
        (ctx.imageHistory.length - MAX_REFERENCE_IMAGES), ?_, ?_, ?_, ?_⟩
    · exact List.drop_suffix _ _
    · intro _
      simp only [List.length_drop]
      omega
    · constructor
      · intro _
        have hpos : 0 < ctx.imageHistory.length :=
          List.length_pos.mpr hcond.2
        intro hnil
        have := congrArg List.length hnil
        simp only [List.length_drop, List.length_nil, MAX_REFERENCE_IMAGES] at this
        omega
      · intro _
        exact hcond
    · have hb : (args.use_image_history && !ctx.imageHistory.isEmpty) = true := by
        simp [hcond.1, List.isEmpty_iff, hcond.2]
      rw [gemini_generate_image_calls_eq env ctx args response now newId s hv hr]
      rw [buildGenerateReferenceParts_eq]
      simp only [hb, if_true, if_pos hcond]
  · refine ⟨[], List.nil_suffix, ?_, ?_, ?_⟩
    · intro hc
      exact absurd hc hcond
    · constructor
      · intro hc
        exact absurd hc hcond
      · intro hne
        exact absurd rfl hne
    · have hb : (args.use_image_history && !ctx.imageHistory.isEmpty) = false := by
        rcases Decidable.not_and_iff_or_not.mp hcond with h | h
        · simp [Bool.eq_false_iff.mpr h]
        · have : ctx.imageHistory = [] := Decidable.not_not.mp h
          simp [this]
      rw [gemini_generate_image_calls_eq env ctx args response now newId s hv hr]
      rw [buildGenerateReferenceParts_eq]
      simp only [hb, Bool.false_eq_true, if_false, if_neg hcond, List.map_nil,
        List.append_nil]

/-- Closed witness for the C4 theorem: with one history record and
consistency mode on, the request is one history image followed by the
suffixed prompt. -/
theorem generate_request_parts_order_witness :
    (gemini_generate_image sampleEnv ctxOneImage genArgsHistory okTransport 7
        "id4").calls
      = [([GeminiImageRequestPart.inlineData "image/png" "AAA",
           GeminiImageRequestPart.text ("A" ++ CONSISTENCY_SUFFIX)], "16:9")] := by
  obtain ⟨he, hsuf, hlen, hiff, hcalls⟩ :=
    generate_request_parts_order sampleEnv ctxOneImage genArgsHistory
      okTransport 7 "id4" "16:9" rfl rfl
  have hc : genArgsHistory.use_image_history = true
      ∧ ctxOneImage.imageHistory ≠ [] := by
    constructor
    · rfl
    · intro hx
      exact absurd (congrArg List.length hx) (by decide)
  have hlen1 : he.length = ctxOneImage.imageHistory.length := by
    rw [hlen hc]
    decide
  have hhe : he = ctxOneImage.imageHistory := hsuf.eq_of_length hlen1
  rw [hcalls, hhe]
  simp only [if_pos hc]
  decide

theorem concatAll_filter_ne_empty (l : List String) :
    concatAll (l.filter (fun t => !(t == ""))) = concatAll l := by
  induction l with
  | nil => rfl
  | cons a t ih =>
      by_cases ha : a = ""
      · subst ha
        simpa [concatAll, List.filter_cons] using ih
      · have hb : (a == "") = false := by simp [ha]
        simp only [concatAll, List.filter_cons, hb, Bool.not_false, if_true,
          List.foldr_cons] at ih ⊢
        rw [ih]

theorem getLast?_cons_or {α : Type} (d : α) (l : List α) (o : Option α) :
    (((d :: l).getLast?).or o) = ((l.getLast?).or (some d)) := by
  cases l with
  | nil => rfl
  | cons b t =>
      rw [List.getLast?_cons_cons]
      cases hx : (b :: t).getLast? with
      | none => exact absurd (List.getLast?_eq_none_iff.mp hx) (by simp)
      | some x => rfl

theorem collect_fold_spec (parts : List ResponsePart) :
    ∀ st : Option String × List String,
      (∀ p ∈ parts, WellFormedResponsePart p) →
      parts.foldl collectChunkParts st
        = (((parts.filterMap ResponsePart.inlineData).getLast?).or st.1,
           st.2 ++ (parts.filterMap ResponsePart.text).filter
              (fun t => !(t == ""))) := by
  induction parts with
  | nil => intro st _; simp
  | cons p rest ih =>
      intro st hwf
      have hp := hwf p (List.mem_cons_self p rest)
      have hrest : ∀ q ∈ rest, WellFormedResponsePart q :=
        fun q hq => hwf q (List.mem_cons_of_mem p hq)
      obtain ⟨hone, hnemp⟩ := hp
      rw [List.foldl_cons, ih _ hrest]
      cases hi : p.inlineData with
      | some d =>
          have hd : (d == "") = false := by
            rw [hi] at hnemp
            simp only [beq_eq_false_iff_ne]
            intro hdc
            exact hnemp (by rw [hdc])
          have ht : p.text = none := by
            rcases hone with h | h
            · rw [hi] at h; exact absurd h (by simp)
            · exact h
          simp only [collectChunkParts, jsTruthyString, hi, hd, Bool.not_false,
            if_true, List.filterMap_cons, ht, getLast?_cons_or]
      | none =>
          cases hT : p.text with
          | some t =>
              by_cases htne : t = ""
              · subst htne
                simp [collectChunkParts, jsTruthyString, hi, hT,
                  List.filterMap_cons]
              · have htb : (t == "") = false := by simp [htne]
                simp [collectChunkParts, jsTruthyString, hi, hT, htb,
                  List.filterMap_cons, List.filter_cons]
          | none =>
              simp [collectChunkParts, jsTruthyString, hi, hT,
                List.filterMap_cons]

theorem aggregateChunks_eq_flatten (chunks : List ResponseChunk) :
    aggregateChunks chunks
      = ((chunks.map ResponseChunk.parts).flatten).foldl collectChunkParts
          (none, []) := by
  rw [aggregateChunks, List.foldl_flatten, List.foldl_map]

/-- C6: for every well-formed sequence of response chunks, the streaming
aggregator produces as text the concatenation of every chunk's text
fragments in arrival order and as image the payload of the last
image-bearing part (earlier image payloads discarded); an aggregated result
with no image and no error is reported by the generate handler as the
distinct soft no-image failure, while a non-2xx transport response and an
unparseable body produce the two distinct hard failures. -/
theorem streaming_aggregation_last_image (chunks : List ResponseChunk)
    (raw : String) (env : Env) (ctx : ConversationContext)
    (args : GenerateArgs) (now : Nat) (newId : String) (s : String)
    (hv : (jsTruthyString args.aspect_ratio
        && !(VALID_ASPECT_RATIOS.contains (args.aspect_ratio.getD ""))) = false)
    (hr : args.aspect_ratio.or ctx.aspectRatio = some s)
    (hwf : ∀ c ∈ chunks, ∀ p ∈ c.parts, WellFormedResponsePart p) :
    callGeminiImageAPI (.success raw (some chunks))
      = .ok { imageData :=
                ((chunks.map ResponseChunk.parts).flatten.filterMap
                    ResponsePart.inlineData).getLast?
              textResponse :=
                concatAll ((chunks.map ResponseChunk.parts).flatten.filterMap
                    ResponsePart.text)
              error := none } ∧
    (((chunks.map ResponseChunk.parts).flatten.filterMap
        ResponsePart.inlineData).getLast? = none →
      (gemini_generate_image env ctx args (.success raw (some chunks)) now
          newId).result
        = .noImage "Image generation failed. No image returned from model") ∧
    (∀ status errText,
      (gemini_generate_image env ctx args (.failure status errText) now
          newId).result
        = .caughtError ("Error generating image: "
            ++ ("API request failed: " ++ toString status ++ " - " ++ errText))) ∧
    (∀ raw2,
      (gemini_generate_image env ctx args (.success raw2 none) now
          newId).result
        = .apiError ("Image generation failed: "
            ++ "Failed to parse API response")) := by
  have hwfflat : ∀ p ∈ (chunks.map ResponseChunk.parts).flatten,
      WellFormedResponsePart p := by
    intro p hpmem
    rw [List.mem_flatten] at hpmem
    obtain ⟨sub, hsub, hpin⟩ := hpmem
    rw [List.mem_map] at hsub
    obtain ⟨c, hc, hce⟩ := hsub
    exact hwf c hc p (hce ▸ hpin)
  have hagg : aggregateChunks chunks
      = (((chunks.map ResponseChunk.parts).flatten.filterMap
            ResponsePart.inlineData).getLast?,
         ((chunks.map ResponseChunk.parts).flatten.filterMap
            ResponsePart.text).filter (fun t => !(t == ""))) := by
    rw [aggregateChunks_eq_flatten, collect_fold_spec _ _ hwfflat]
    simp
  have hcall : callGeminiImageAPI (.success raw (some chunks))
      = .ok { imageData :=
                ((chunks.map ResponseChunk.parts).flatten.filterMap
                    ResponsePart.inlineData).getLast?
              textResponse :=
                concatAll ((chunks.map ResponseChunk.parts).flatten.filterMap
                    ResponsePart.text)
              error := none } := by
    simp only [callGeminiImageAPI, hagg]
    rw [concatAll_filter_ne_empty]
  refine ⟨hcall, ?_, ?_, ?_⟩
  · intro himg
    rw [himg] at hcall
    simp only [gemini_generate_image, hv, Bool.false_eq_true, if_false, hr,
      hcall]
  · intro status errText
    simp only [gemini_generate_image, hv, Bool.false_eq_true, if_false, hr,
      callGeminiImageAPI]
  · intro raw2
    simp only [gemini_generate_image, hv, Bool.false_eq_true, if_false, hr,
      callGeminiImageAPI]

/-- Closed witness for the C6 theorem: the second image payload wins, the
text fragments concatenate in order, and a transport failure is reported as
the hard caught error. -/
theorem streaming_aggregation_last_image_witness :
    callGeminiImageAPI
        (.success "raw" (some
          [{ parts := [{ text := some "a", inlineData := none },
                       { text := none, inlineData := some "I1" }] },
           { parts := [{ text := some "b", inlineData := none },
                       { text := none, inlineData := some "I2" }] }]))
      = .ok { imageData := some "I2", textResponse := "ab", error := none } ∧
    (gemini_generate_image sampleEnv emptyCtx genArgsHistory
        (.failure 500 "boom") 7 "id6").result
      = .caughtError "Error generating image: API request failed: 500 - boom" := by
  have h := streaming_aggregation_last_image
    [{ parts := [{ text := some "a", inlineData := none },
                 { text := none, inlineData := some "I1" }] },
     { parts := [{ text := some "b", inlineData := none },
                 { text := none, inlineData := some "I2" }] }]
    "raw" sampleEnv emptyCtx genArgsHistory 7 "id6" "16:9" rfl rfl
    (by decide)
  constructor
  · exact h.1.trans (by decide)
  · exact (h.2.2.1 500 "boom").trans (by decide)

theorem gemini_generate_image_saved (env : Env) (ctx : ConversationContext)
    (args : GenerateArgs) (response : TransportResponse) (now : Nat)
    (newId : String) (s d txt : String)
    (hv : (jsTruthyString args.aspect_ratio
        && !(VALID_ASPECT_RATIOS.contains (args.aspect_ratio.getD ""))) = false)
    (hr : args.aspect_ratio.or ctx.aspectRatio = some s)
    (hapi : callGeminiImageAPI response
        = .ok { imageData := some d, textResponse := txt, error := none }) :
    (gemini_generate_image env ctx args response now newId).result
      = .saved (if jsTruthyString args.output_path then
                  normalizeRequestedOutputPath env (args.output_path.getD "")
                else generatedDefaultPath env now)
          (buildGenerateReferenceParts env args.reference_images).2 := by
  simp only [gemini_generate_image, hv, Bool.false_eq_true, if_false, hr, hapi]

theorem editAfterSubject_saved (env : Env) (ctx : ConversationContext)
    (eargs : EditArgs) (response : TransportResponse) (now : Nat)
    (newId : String) (a b64 orig d txt : String)
    (hapi : callGeminiImageAPI response
        = .ok { imageData := some d, textResponse := txt, error := none }) :
    (editAfterSubject env ctx eargs response now newId a b64 orig).result
      = .saved (if jsTruthyString eargs.output_path then
                  normalizeRequestedOutputPath env (eargs.output_path.getD "")
                else editedDefaultPath env orig now)
          (buildEditReferenceParts env ctx eargs.reference_images).2 := by
  simp only [editAfterSubject, hapi]

theorem hasPngSuffixCI_append_png (x : String) :
    hasPngSuffixCI (x ++ ".png") = true := by
  simp only [hasPngSuffixCI, String.data_append, List.map_append,
    List.reverse_append]
  have hmap : List.map Char.toLower ".png".data = ".png".data := by decide
  rw [hmap]
  have hrev : (".png".data).reverse = "gnp.".data := by decide
  rw [hrev]
  have h4 : ("gnp.".data).length = 4 := rfl
  rw [← h4, List.take_left]
  simp

/-- C9: for generate/edit calls with a requested output path, relative paths
are resolved against the working directory and the extension is forced to
`.png` (the existing extension is stripped and replaced, so `out` becomes
`out.png` and `out.jpg` becomes `out.png`, every normalized path ending in
`.png` case-insensitively); with no requested path the file is placed in the
fixed default directory under `generated_<epoch-millis>.png` for generate
and `<origName>_edited_<epoch-millis>.png` for edit. -/
theorem output_path_normalization (env : Env) (ctx : ConversationContext)
    (args : GenerateArgs) (eargs : EditArgs) (response : TransportResponse)
    (now : Nat) (newId : String) (s d txt b64 orig : String)
    (hv : (jsTruthyString args.aspect_ratio
        && !(VALID_ASPECT_RATIOS.contains (args.aspect_ratio.getD ""))) = false)
    (hr : args.aspect_ratio.or ctx.aspectRatio = some s)
    (hapi : callGeminiImageAPI response
        = .ok { imageData := some d, textResponse := txt, error := none }) :
    (∀ p, args.output_path = some p → p ≠ "" →
      (gemini_generate_image env ctx args response now newId).result
        = .saved (normalizeRequestedOutputPath env p)
            (buildGenerateReferenceParts env args.reference_images).2) ∧
    (args.output_path = none →
      (gemini_generate_image env ctx args response now newId).result
        = .saved (pathJoin (defaultOutputDir env)
              ("generated_" ++ toString now ++ ".png"))
            (buildGenerateReferenceParts env args.reference_images).2) ∧
    (∀ p, eargs.output_path = some p → p ≠ "" →
      (editAfterSubject env ctx eargs response now newId s b64 orig).result
        = .saved (normalizeRequestedOutputPath env p)
            (buildEditReferenceParts env ctx eargs.reference_images).2) ∧
    (eargs.output_path = none →
      (editAfterSubject env ctx eargs response now newId s b64 orig).result
        = .saved (pathJoin (defaultOutputDir env)
              (orig ++ "_edited_" ++ toString now ++ ".png"))
            (buildEditReferenceParts env ctx eargs.reference_images).2) ∧
    (∀ p, hasPngSuffixCI (normalizeRequestedOutputPath env p) = true) ∧
    (normalizeRequestedOutputPath sampleEnv "out" = "/cwd/out.png" ∧
     normalizeRequestedOutputPath sampleEnv "out.jpg" = "/cwd/out.png") := by
  refine ⟨?_, ?_, ?_, ?_, ?_, by decide, by decide⟩
  · intro p hp hne
    rw [gemini_generate_image_saved env ctx args response now newId s d txt
      hv hr hapi, hp]
    have hjs : jsTruthyString (some p) = true := by
      simp [jsTruthyString, hne]
    simp [hjs]
  · intro hp
    rw [gemini_generate_image_saved env ctx args response now newId s d txt
      hv hr hapi, hp]
    simp [jsTruthyString, generatedDefaultPath]
  · intro p hp hne
    rw [editAfterSubject_saved env ctx eargs response now newId s b64 orig d
      txt hapi, hp]
    have hjs : jsTruthyString (some p) = true := by
      simp [jsTruthyString, hne]
    simp [hjs]
  · intro hp
    rw [editAfterSubject_saved env ctx eargs response now newId s b64 orig d
      txt hapi, hp]
    simp [jsTruthyString, editedDefaultPath]
  · intro p
    by_cases hsf : hasPngSuffixCI
        (if isAbsolutePath p then p else pathJoin env.cwd p) = true
    · simp only [normalizeRequestedOutputPath, hsf, if_true]
    · rw [Bool.not_eq_true] at hsf
      simp only [normalizeRequestedOutputPath, hsf, Bool.false_eq_true,
        if_false]
      exact hasPngSuffixCI_append_png _

/-- Closed witness for the C9 theorem: a requested relative path `out.jpg`
is saved as `/cwd/out.png`. -/
theorem output_path_normalization_witness :
    (gemini_generate_image sampleEnv emptyCtx genArgsOutJpg okTransport 7
        "id7").result = .saved "/cwd/out.png" [] := by
  have h := (output_path_normalization sampleEnv emptyCtx genArgsOutJpg
    editArgsSubject okTransport 7 "id7" "1:1" "B64IMG" "" "b64" "orig"
    (by decide) (by decide) (by decide)).1
  exact (h "out.jpg" rfl (by decide)).trans (by decide)

end NanoBananaMCP
